import Mathlib

/-!
Verification of the SkillSync frontend (Next.js/TypeScript) against its
natural-language specification.

The repository's checked-in sources are the frontend: the Home page
(upload, `fetchReport` pipeline, result display components), the API
service layer (`services/api.ts`), and utilities
(`utils/passwordValidation.ts`).  The backend skill-matching engine and
fit-score calculator are reachable only through HTTP calls and are not
part of the sources; where a claim is decided by that missing backend
code, the corresponding definition is modelled from the spec and marked
`Modelled from the spec:` in its doc comment.  Everything else is a
direct shallow embedding of the TypeScript source.

JavaScript strings are modelled as Lean `String`; `String.length` in JS
counts UTF-16 code units, embedded here as `jsLength`.  JS `toLowerCase`
is embedded with Lean's ASCII `Char.toLower` (all string constants the
code compares against are ASCII).  JS numbers in the score arithmetic
are embedded as `Nat`/`ℚ` (the source only ever adds non-negative
constants, respectively divides exact counts).
-/

namespace SkillSync

/-- JS `String.prototype.length`: number of UTF-16 code units. -/
def jsLength (s : String) : Nat :=
  s.data.foldl (fun n c => n + (if c.toNat < 0x10000 then 1 else 2)) 0

/-- Boolean test that `hay` starts with `pat` (on character lists). -/
def startsWithL : List Char → List Char → Bool
  | _, [] => true
  | [], _ :: _ => false
  | h :: hs, p :: ps => h == p && startsWithL hs ps

/-- JS `String.prototype.includes`: `pat` occurs as a contiguous substring
of `hay` (true for the empty pattern). -/
def containsSub : List Char → List Char → Bool
  | [], pat => pat.isEmpty
  | h :: t, pat => startsWithL (h :: t) pat || containsSub t pat

/-- JS `includes` lifted to `String`. -/
def strIncludes (hay pat : String) : Bool :=
  containsSub hay.data pat.data

/-- ASCII lowercasing, the embedding of JS `toLowerCase` on the ASCII
strings this code base compares. -/
def jsToLower (s : String) : String :=
  ⟨s.data.map Char.toLower⟩

/-! ## `generateLinkedInLearningUrl` (app/page.tsx, `CourseRecommendationsSection`)

```ts
const generateLinkedInLearningUrl = (skillName: string) => {
  return `https://www.linkedin.com/learning/search?keywords=${encodeURIComponent(skillName)}`;
};
```
-/

/-- The characters ECMAScript `encodeURIComponent` leaves unescaped:
`A–Z a–z 0–9 - _ . ! ~ * ' ( )`. -/
def uriUnreserved (c : Char) : Bool :=
  c.isAlpha || c.isDigit || c ∈ ("-_.!~*'()".data)

/-- Uppercase hexadecimal digit for `n < 16` (defaulting inside the same
alphabet for out-of-range arguments, which never occur). -/
def hexDigitChar (n : Nat) : Char :=
  "0123456789ABCDEF".data.getD n '0'

/-- UTF-8 encoding of one character, as byte values. -/
def utf8Bytes (c : Char) : List Nat :=
  let n := c.toNat
  if n < 0x80 then [n]
  else if n < 0x800 then [0xC0 + n / 0x40, 0x80 + n % 0x40]
  else if n < 0x10000 then
    [0xE0 + n / 0x1000, 0x80 + (n / 0x40) % 0x40, 0x80 + n % 0x40]
  else
    [0xF0 + n / 0x40000, 0x80 + (n / 0x1000) % 0x40,
     0x80 + (n / 0x40) % 0x40, 0x80 + n % 0x40]

/-- `%XX` escape of one byte, uppercase hex as in ECMAScript. -/
def percentEscape (b : Nat) : List Char :=
  ['%', hexDigitChar (b / 16), hexDigitChar (b % 16)]

/-- ECMAScript `encodeURIComponent`: unreserved characters pass through,
every other character is replaced by the `%XX` escapes of its UTF-8
bytes. -/
def encodeURIComponent (s : String) : String :=
  ⟨s.data.flatMap fun c =>
    if uriUnreserved c then [c] else (utf8Bytes c).flatMap percentEscape⟩

/-- The fixed LinkedIn Learning search endpoint the URL is built on. -/
def linkedInLearningSearchBase : String :=
  "https://www.linkedin.com/learning/search?keywords="

/-- Embedding of `generateLinkedInLearningUrl` from the source. -/
def generateLinkedInLearningUrl (skillName : String) : String :=
  linkedInLearningSearchBase ++ encodeURIComponent skillName

/-- A character that may appear in the query part produced by
`encodeURIComponent`: an unreserved character, `%`, or a hex digit. -/
def uriOutputChar (c : Char) : Bool :=
  uriUnreserved c || c == '%' || c ∈ ("0123456789ABCDEF".data)

/-! ## Data model (utils/types.ts shapes, as consumed by app/page.tsx) -/

/-- A skill: name plus category string (the category enum travels as a
string in the JSON payloads). -/
structure Skill where
  name : String
  category : String
deriving DecidableEq, Repr

/-- A matched JD skill: the JD's canonical skill, the strategy that
matched it, and the match confidence. -/
structure SkillMatch where
  skill : Skill
  match_type : String
  confidence : ℚ
deriving DecidableEq, Repr

/-- A course recommendation entry as rendered by
`CourseRecommendationsSection`. -/
structure CourseRecommendation where
  skill_name : String
  category : String
  platform : String
  linkedin_learning_url : String
deriving DecidableEq, Repr

/-! ## `CourseRecommendationsSection` fallback path (app/page.tsx)

When the report carries no `course_recommendations`, the section renders
the missing skills themselves:

```ts
const topMissing = missingSkills.slice(0, 10);
...
{topMissing.map((skill, index) => ( <a href={generateLinkedInLearningUrl(skill.name)} ...>
  {skill.name} ... {skill.category?.replace(/_/g, " ") || "Other"} ... LinkedIn Learning ... ))}
```
-/

/-- `missingSkills.slice(0, 10)` from the source. -/
def topMissing (missingSkills : List Skill) : List Skill :=
  missingSkills.take 10

/-- The recommendation cards the fallback path renders, one per entry of
`topMissing`, in order, each linking to the LinkedIn Learning search URL
for the skill's name. -/
def courseRecommendationsFallback (missingSkills : List Skill) : List CourseRecommendation :=
  (topMissing missingSkills).map fun s =>
    { skill_name := s.name
      category := s.category
      platform := "LinkedIn Learning"
      linkedin_learning_url := generateLinkedInLearningUrl s.name }

/-! ## `validatePassword` (frontend/utils/passwordValidation.ts)

Embedding of the full validator (the variant with 12-character minimum,
pattern checks and personal-information checks; the file's earlier
8-character variant differs only in the minimum length and in skipping
checks 5–6, which does not affect the properties proved here).
-/

/-- The optional `userInfo` argument of `validatePassword`. -/
structure UserInfo where
  email : Option String := none
  fullName : Option String := none
  username : Option String := none
  phone : Option String := none

/-- Result record of `validatePassword`. -/
structure PasswordValidationResult where
  isValid : Bool
  errors : List String
  strength : String
  score : Nat
deriving Repr

/-- `COMMON_PASSWORDS` (top 100 common passwords list from the source). -/
def COMMON_PASSWORDS : List String :=
  ["123456", "password", "123456789", "12345678", "12345", "1234567", "1234567890",
   "qwerty", "abc123", "111111", "123123", "admin", "letmein", "welcome",
   "monkey", "1234567890", "qwerty123", "000000", "12345678910", "password123",
   "Password1", "password1", "qwertyuiop", "123321", "dragon", "sunshine",
   "princess", "football", "iloveyou", "123qwe", "starwars", "123abc",
   "trustno1", "jordan23", "jennifer", "zxcvbnm", "asdfgh", "hunter",
   "buster", "soccer", "harley", "batman", "andrew", "tigger", "shadow",
   "master", "jordan", "michael", "michelle", "superman", "qwerty12",
   "hello", "freedom", "whatever", "qazwsx", "ninja", "mustang", "baseball",
   "access", "flower", "hello123", "welcome123", "login", "admin123",
   "princess1", "qwerty1", "solo", "passw0rd", "starwars1", "dragon1",
   "password12", "master1", "hello1", "freedom1", "whatever1", "ninja1",
   "mustang1", "baseball1", "access1", "flower1", "login1", "princess12",
   "qwerty1234", "solo1", "starwars12", "dragon12", "password1234",
   "master12", "hello12", "freedom12", "whatever12", "ninja12", "mustang12",
   "baseball12", "access12", "flower12", "login12", "admin1234", "princess123",
   "qwerty12345", "solo12", "starwars123", "dragon123", "password12345"]

/-- The letter triads of the first `SEQUENTIAL_PATTERNS` regex
(matched case-insensitively). -/
def SEQUENTIAL_LETTERS : List String :=
  ["abc", "bcd", "cde", "def", "efg", "fgh", "ghi", "hij", "ijk", "jkl",
   "klm", "lmn", "mno", "nop", "opq", "pqr", "qrs", "rst", "stu", "tuv",
   "uvw", "vwx", "wxy", "xyz"]

/-- The digit triads of the second `SEQUENTIAL_PATTERNS` regex. -/
def SEQUENTIAL_DIGITS : List String :=
  ["012", "123", "234", "345", "456", "567", "678", "789", "890"]

/-- The keyboard-row tetrads of the third `SEQUENTIAL_PATTERNS` regex
(matched case-insensitively). -/
def SEQUENTIAL_KEYROWS : List String :=
  ["qwer", "wert", "erty", "rtyu", "tyui", "yuio", "uiop", "asdf", "sdfg",
   "dfgh", "fghj", "ghjk", "hjkl", "zxcv", "xcvb", "cvbn", "vbnm"]

/-- The tetrads of the first `KEYBOARD_WALKS` regex (case-insensitive). -/
def KEYBOARD_WALK_TETRADS : List String :=
  ["1qaz", "qaz2", "az2w", "z2ws", "2wsx", "wsx3", "sx3e", "x3ed", "3edc",
   "edc4", "dc4r", "c4rf", "4rfv", "rfv5", "fv5t", "v5tg", "5tgb", "tgb6",
   "gb6y", "b6yh", "6yhn", "yhn7", "hn7u", "n7uj", "7ujm", "ujm8", "jm8i",
   "m8ik", "8iko", "iko9", "ko9o", "o9ol", "9ol0", "ol0p", "l0p-"]

/-- The rows of the second `KEYBOARD_WALKS` regex (case-insensitive). -/
def KEYBOARD_WALK_ROWS : List String :=
  ["qwerty", "asdfgh", "zxcvbn"]

/-- The special-character class of the variety check:
`/[!@#$%^&*_\-+=.,?;:()\[\]{}|\\\/`~<>]/`. -/
def SPECIAL_CHARS : List Char :=
  "!@#$%^&*_-+=.,?;:()[]\x7b\x7d|\\/`~<>".data

/-- A case-insensitive regex alternation of literal words, embedded as:
some pattern occurs in the lowercased subject. -/
def anyPatternCI (pats : List String) (s : String) : Bool :=
  pats.any fun p => containsSub (jsToLower s).data p.data

/-- JS regex `.` (it does not match line terminators). -/
def jsDotChar (c : Char) : Bool :=
  !(c == '\n' || c == '\r' || c == '\u2028' || c == '\u2029')

/-- `/(.)\1{3,}/`: four or more consecutive equal non-terminator
characters somewhere in the list. -/
def hasRepeatedRun : List Char → Bool
  | a :: b :: c :: d :: t =>
    (jsDotChar a && a == b && b == c && c == d) || hasRepeatedRun (b :: c :: d :: t)
  | _ => false

/-- `email.toLowerCase().split('@')[0]`: the part before the first `@`
(the whole string when there is no `@`). -/
def emailLocalPart (email : String) : String :=
  ⟨(jsToLower email).data.takeWhile (fun c => c != '@')⟩

/-- `phone.replace(/\D/g, '')`: keep only the decimal digits. -/
def digitsOnly (phone : String) : String :=
  ⟨phone.data.filter Char.isDigit⟩

/-- The personal-information probes of check 6, in source order:
email local part, full name, username, phone digits. -/
def personalInfoChecks (u : UserInfo) : List (Option String × String) :=
  [(u.email.map emailLocalPart, "email"),
   (u.fullName.map jsToLower, "name"),
   (u.username.map jsToLower, "username"),
   (u.phone.map digitsOnly, "phone number")]

/-- First personal-information field (length > 2) contained in the
lowercased password, if any; the source pushes one error and breaks. -/
def firstPersonalInfoHit (lowerPassword : String) (u : UserInfo) : Option String :=
  (personalInfoChecks u).findSome? fun pc =>
    match pc.1 with
    | some v =>
      if v.length > 2 && strIncludes lowerPassword v then some pc.2 else none
    | none => none

/-- Embedding of `validatePassword(password, userInfo?)`. -/
def validatePassword (password : String) (userInfo : Option UserInfo) :
    PasswordValidationResult :=
  let hasUppercase := password.data.any Char.isUpper
  let hasLowercase := password.data.any Char.isLower
  let hasNumber := password.data.any Char.isDigit
  let hasSpecial := password.data.any (· ∈ SPECIAL_CHARS)
  let varietyCount :=
    ([hasUppercase, hasLowercase, hasNumber, hasSpecial].filter id).length
  let lowerPassword := jsToLower password
  let isCommon :=
    COMMON_PASSWORDS.any fun common => strIncludes lowerPassword (jsToLower common)
  let hasSequential :=
    anyPatternCI SEQUENTIAL_LETTERS password
      || SEQUENTIAL_DIGITS.any (fun p => strIncludes password p)
      || anyPatternCI SEQUENTIAL_KEYROWS password
  let hasWalk :=
    anyPatternCI KEYBOARD_WALK_TETRADS password
      || anyPatternCI KEYBOARD_WALK_ROWS password
  let hasRepeat := hasRepeatedRun password.data
  let missingVariety :=
    (if hasUppercase then [] else ["uppercase letter"])
      ++ (if hasLowercase then [] else ["lowercase letter"])
      ++ (if hasNumber then [] else ["number"])
      ++ (if hasSpecial then [] else ["special character"])
  let errs :=
    (if jsLength password < 12 then
      ["Password must be at least 12 characters long"] else [])
    ++ (if jsLength password > 64 then
      ["Password must be no more than 64 characters long"] else [])
    ++ (if varietyCount < 3 then
      ["Password must include at least 3 of: uppercase, lowercase, numbers, special characters. Missing: "
        ++ String.intercalate ", " (missingVariety.take 2)] else [])
    ++ (if isCommon then
      ["Password is too common. Please choose a more unique password"] else [])
    ++ (if hasSequential then
      ["Password contains sequential patterns (e.g., \"abc\", \"123\")"] else [])
    ++ (if hasWalk then
      ["Password contains keyboard walk patterns (e.g., \"qwerty\", \"1qaz\")"] else [])
    ++ (if hasRepeat then
      ["Password contains too many repeated characters"] else [])
    ++ (match userInfo with
        | some u =>
          match firstPersonalInfoHit lowerPassword u with
          | some nm => ["Password cannot contain your " ++ nm]
          | none => []
        | none => [])
  let score :=
    (if jsLength password < 12 then 0 else 20)
    + (if varietyCount < 3 then 0 else 30 + (if varietyCount == 4 then 10 else 0))
    + (if isCommon then 0 else 15)
    + (if hasSequential then 0 else 10)
    + (if hasWalk then 0 else 5)
    + (if hasRepeat then 0 else 5)
    + (if errs.isEmpty then 5 else 0)
  let strength :=
    if score < 40 then "weak"
    else if score < 60 then "medium"
    else if score < 80 then "strong"
    else "very-strong"
  { isValid := errs.isEmpty
    errors := errs
    strength := strength
    score := Nat.min 100 score }

/-! ## `generatePDFReport` (frontend/services/api.ts)

```ts
const response = await apiClient.post("/api/report/generate-pdf", request, {
  responseType: "blob",
  validateStatus: (status) => status < 500,
});
const contentType = response.headers["content-type"] || "";
if (response.status >= 400 || !contentType.includes("application/pdf")) {
  const errorMessage = await parseBlobError(response.data);
  throw new Error(errorMessage);
}
return response.data;
```
with the catch block parsing blob error bodies and rethrowing `Error`s.
-/

/-- A response body blob, together with the outcome of `JSON.parse` on
its text: `parsesAsJson` says whether the text is valid JSON, and
`detail`/`message` are the string fields `json.detail`/`json.message`
when present (reading the blob's text is modelled as total). -/
structure BlobData where
  text : String
  parsesAsJson : Bool
  detail : Option String := none
  message : Option String := none
deriving DecidableEq, Repr

/-- JS `a || b` on an optional string against a fallback: an absent or
empty (falsy) value falls through. -/
def jsOrStr (v : Option String) (fallback : String) : String :=
  match v with
  | some s => if s = "" then fallback else s
  | none => fallback

/-- Embedding of `parseBlobError`: `json.detail || json.message || text`
when the text parses as JSON, otherwise `text || "Unknown error
occurred"`. -/
def parseBlobError (b : BlobData) : String :=
  if b.parsesAsJson then jsOrStr b.detail (jsOrStr b.message b.text)
  else if b.text = "" then "Unknown error occurred" else b.text

/-- What the axios POST of `generatePDFReport` can deliver: a response
axios does not throw on (`validateStatus: status < 500`, so any status
below 500, with its `content-type` header value, `""` when absent), an
axios error that carries a blob response body (a 5xx), or a transport
failure with only an error message. -/
inductive PdfHttpOutcome where
  | response (status : Nat) (contentType : String) (body : BlobData)
  | axiosBlobError (body : BlobData)
  | transportError (message : String)
deriving DecidableEq, Repr

/-- Embedding of `generatePDFReport`: the blob is returned only for a
response with status `< 400` whose content type includes
`application/pdf`; everything else becomes a thrown `Error` whose
message is the parsed error body (or the transport error's message). -/
def generatePDFReport : PdfHttpOutcome → Except String BlobData
  | .response status ct body =>
    if 400 ≤ status ∨ strIncludes ct "application/pdf" = false then
      .error (parseBlobError body)
    else .ok body
  | .axiosBlobError body => .error (parseBlobError body)
  | .transportError msg => .error msg

/-! ## `fetchReport` (app/page.tsx, `Home`)

The client pipeline: input gate, extract POST with a single fallback
retry, then the analyze POST.
-/

/-- JS truthiness of an optional string: absent or empty is falsy. -/
def jsPresent (v : Option String) : Option String :=
  match v with
  | some s => if s = "" then none else some s
  | none => none

/-- JS `a || b` on two optional strings. -/
def jsOrOpt (a b : Option String) : Option String :=
  match jsPresent a with
  | some s => some s
  | none => jsPresent b

/-- Embedding of the `canAnalyze` effect (app/page.tsx):
`hasResume && hasJD` with `hasResume = !!(resumeFileId || resumeTextId)`
and `hasJD = !!(jdFileId || jdTextId)`. -/
def canAnalyze (resumeFileId resumeTextId jdFileId jdTextId : Option String) : Bool :=
  (jsOrOpt resumeFileId resumeTextId).isSome && (jsOrOpt jdFileId jdTextId).isSome

/-- Result of the input gate at the top of `fetchReport`. -/
inductive InputGate where
  | rejected (message : String)
  | proceed (resumeId jdId : String)
deriving DecidableEq, Repr

/-- Embedding of the first check of `fetchReport`:
`const resumeId = resumeFileId || resumeTextId; const jdId = jdFileId ||
jdTextId; if (!resumeId || !jdId) { setError("Missing resume or job
description"); ... return; }`. -/
def fetchReportInputGate (resumeFileId resumeTextId jdFileId jdTextId : Option String) :
    InputGate :=
  match jsOrOpt resumeFileId resumeTextId, jsOrOpt jdFileId jdTextId with
  | some r, some j => .proceed r j
  | _, _ => .rejected "Missing resume or job description"

/-- The body shape of the extract POST built by `fetchReport`. -/
structure ExtractRequest where
  resume_text : Option String := none
  resume_id : Option String := none
  job_description_text : Option String := none
  jd_id : Option String := none
deriving DecidableEq, Repr

/-- Embedding of the `extractRequest` construction: text (stored or
generic) wins over the id on each side; the id is used only when no
text is available. -/
def buildExtractRequest (resumeText resumeId jdText jdId : Option String) : ExtractRequest :=
  { resume_text := jsPresent resumeText
    resume_id := if (jsPresent resumeText).isSome then none else jsPresent resumeId
    job_description_text := jsPresent jdText
    jd_id := if (jsPresent jdText).isSome then none else jsPresent jdId }

/-- Embedding of `if (!extractRequest.resume_text &&
!extractRequest.resume_id) throw new Error("Resume data is required.
...")`. -/
def resumeDataCheck (req : ExtractRequest) : Except String ExtractRequest :=
  if req.resume_text = none ∧ req.resume_id = none then
    .error "Resume data is required. Please upload or paste your resume and try again."
  else .ok req

/-- The error object a rejected axios call delivers: `code`, `name` and
`message` as inspected by `fetchReport`. -/
structure JsError where
  code : Option String
  name : Option String
  message : String
deriving DecidableEq, Repr

/-- Outcome of one awaited POST. -/
inductive CallOutcome (α : Type) where
  | success (value : α)
  | failure (e : JsError)
deriving DecidableEq, Repr

/-- `extractErr.code === 'ERR_CANCELED' || extractErr.message ===
'canceled' || extractErr.name === 'CanceledError'`. -/
def isCancelError (e : JsError) : Bool :=
  e.code == some "ERR_CANCELED" || e.message == "canceled" || e.name == some "CanceledError"

/-- `extractErr.code === 'ECONNABORTED' ||
extractErr.message?.includes('timeout')`. -/
def isTimeoutLike (e : JsError) : Bool :=
  e.code == some "ECONNABORTED" || strIncludes e.message "timeout"

/-- Embedding of the extract phase of `fetchReport` (first POST, error
triage, and the single fallback retry).  `first` is the outcome of the
first POST, `aborted` whether the abort controller had fired,
`fallbackResumeText`/`fallbackJdText` the session-storage fallback
texts, and `retry` the outcome the retry POST would have.  Returns the
phase result together with how many extract POSTs were performed. -/
def extractPhase {α : Type} (first : CallOutcome α) (aborted : Bool)
    (fallbackResumeText fallbackJdText : Option String)
    (retry : CallOutcome α) : Except String α × Nat :=
  match first with
  | .success v => (.ok v, 1)
  | .failure e =>
    if isCancelError e then
      (.error (if aborted then "Extraction timed out. Please try again."
               else "Extraction was cancelled. Please try again."), 1)
    else if isTimeoutLike e then
      (.error "Extraction is taking too long. Please try again.", 1)
    else if (jsPresent fallbackResumeText).isSome && (jsPresent fallbackJdText).isSome then
      match retry with
      | .success v => (.ok v, 2)
      | .failure e2 => (.error e2.message, 2)
    else
      (.error e.message, 1)

/-- Message mapping of the analyze catch block. -/
def analyzeErrorMessage (aborted : Bool) (e : JsError) : String :=
  if isCancelError e then
    (if aborted then "Analysis timed out. Please try again."
     else "Analysis was cancelled. Please try again.")
  else if isTimeoutLike e then "Analysis is taking too long. Please try again."
  else e.message

/-- Embedding of the remainder of `fetchReport` after the extract phase:
only a successful extraction reaches the analyze POST.  Returns the
overall result and the number of analyze POSTs performed. -/
def fetchReportRun {α β : Type} (extractResult : Except String α)
    (analyzeOutcome : CallOutcome β) (analyzeAborted : Bool) : Except String β × Nat :=
  match extractResult with
  | .error m => (.error m, 0)
  | .ok _ =>
    match analyzeOutcome with
    | .success rep => (.ok rep, 1)
    | .failure e => (.error (analyzeErrorMessage analyzeAborted e), 1)

/-! ## Extraction Orchestrator (spec §4.2), modelled from the spec -/

/-- Which extraction side failed. -/
inductive ExtractionSide where
  | resume
  | job_description
deriving DecidableEq, Repr

/-- The extraction error kinds of spec §4.1. -/
inductive ExtractionError where
  | timeout
  | malformed_response
  | upstream_error
deriving DecidableEq, Repr

/-- Modelled from the spec: the backend Extraction Orchestrator's
`extractBoth` (spec §4.2) is behind the `/api/extract/extract` endpoint
and is not among the checked-in sources.  Per the spec it combines the
two per-side extraction results only after both complete or one fails:
on either side failing terminally the whole operation fails with that
error annotated with the failing side, and a partial pair is never
produced. -/
def extractBoth {α : Type} (resumeResult jdResult : Except ExtractionError α) :
    Except (ExtractionSide × ExtractionError) (α × α) :=
  match resumeResult, jdResult with
  | .error e, _ => .error (.resume, e)
  | .ok _, .error e => .error (.job_description, e)
  | .ok r, .ok j => .ok (r, j)

/-! ## Skill Matching Engine (spec §4.4), modelled from the spec

The matching engine runs behind `/api/analyze/analyze-gap` and is not
among the checked-in sources; the definitions below are modelled from
spec §§4.3–4.4.
-/

/-- Modelled from the spec: the Taxonomy's synonym/alias table
(spec §4.3), canonical form keyed by alias. -/
abbrev Taxonomy := List (String × String)

/-- Modelled from the spec: basic normalization (spec §4.3): lowercase,
strip punctuation/whitespace variance (non-alphanumerics become
separators and runs collapse to single spaces). -/
def normalizeBasic (s : String) : String :=
  let cleaned : List Char :=
    (jsToLower s).data.map fun c => if c.isAlphanum then c else ' '
  String.intercalate " " (((String.mk cleaned).splitOn " ").filter (· ≠ ""))

/-- Modelled from the spec: full normalization (spec §4.3): basic
normalization then resolution through the synonym table; unrecognized
names pass through unchanged. -/
def normalize (tax : Taxonomy) (raw : String) : String :=
  let b := normalizeBasic raw
  match List.lookup b tax with
  | some canonical => canonical
  | none => b

/-- Token set of a skill name under basic normalization. -/
def nameTokens (s : String) : List String :=
  ((normalizeBasic s).splitOn " ").filter (· ≠ "")

/-- Modelled from the spec: the token-overlap similarity metric of the
fuzzy strategy (spec §4.4 step 4), as Jaccard overlap of the
normalized token sets. -/
def similarity (a b : String) : ℚ :=
  let ta := (nameTokens a).dedup
  let tb := (nameTokens b).dedup
  let inter := (ta.filter fun x => tb.contains x).length
  let union := (ta ++ tb.filter fun x => !ta.contains x).length
  if union = 0 then 0 else (inter : ℚ) / union

/-- The fuzzy-match similarity threshold (design default 0.75). -/
def fuzzyThreshold : ℚ := 3 / 4

/-- Spec §4.4 step 1: equal normalized names, confidence 1.0. -/
def exactStrategy (jd r : Skill) : Option (String × ℚ) :=
  if normalizeBasic r.name = normalizeBasic jd.name then some ("exact", 1) else none

/-- Spec §4.4 step 2: same canonical form through the alias table,
confidence 0.9 (only reached when step 1 failed). -/
def synonymStrategy (tax : Taxonomy) (jd r : Skill) : Option (String × ℚ) :=
  if normalize tax r.name = normalize tax jd.name then some ("synonym", 9 / 10) else none

/-- Spec §4.4 step 4: similarity above the threshold, confidence the
similarity clamped into `[threshold, 1)`. -/
def fuzzyStrategy (jd r : Skill) : Option (String × ℚ) :=
  let sim := similarity r.name jd.name
  if fuzzyThreshold ≤ sim then some ("fuzzy", min sim (99 / 100)) else none

/-- First element of the pool on which the probe succeeds, with the
probe's answer and the pool with that element removed. -/
def consumeFirst {α β : Type} (p : α → Option β) : List α → Option (α × β × List α)
  | [] => none
  | x :: xs =>
    match p x with
    | some b => some (x, b, xs)
    | none =>
      match consumeFirst p xs with
      | some (y, b, rest) => some (y, b, x :: rest)
      | none => none

/-- Modelled from the spec: strategies tried in priority order with
first success winning; the matched resume skill is removed from the
pool. -/
def findMatchForJd (tax : Taxonomy) (jd : Skill) (pool : List Skill) :
    Option (Skill × (String × ℚ) × List Skill) :=
  match consumeFirst (exactStrategy jd) pool with
  | some res => some res
  | none =>
    match consumeFirst (synonymStrategy tax jd) pool with
    | some res => some res
    | none => consumeFirst (fuzzyStrategy jd) pool

/-- Accumulated state of the matching pass: the matches made, the JD
skills found missing, the resume skills consumed by matches, and the
still-unconsumed resume pool. -/
structure MatchAcc where
  matched : List SkillMatch
  missing : List Skill
  consumed : List Skill
  pool : List Skill
deriving DecidableEq, Repr

/-- Modelled from the spec: the matching pass (spec §4.4): each JD skill
in turn is matched against the unconsumed resume pool; a match consumes
its resume skill (one-to-one), a JD skill with no match becomes
missing. -/
def matchJdSkills (tax : Taxonomy) : List Skill → List Skill → MatchAcc
  | [], pool => ⟨[], [], [], pool⟩
  | jd :: rest, pool =>
    match findMatchForJd tax jd pool with
    | some (r, tc, poolAfter) =>
      let acc := matchJdSkills tax rest poolAfter
      ⟨⟨jd, tc.1, tc.2⟩ :: acc.matched, acc.missing, r :: acc.consumed, acc.pool⟩
    | none =>
      let acc := matchJdSkills tax rest pool
      ⟨acc.matched, jd :: acc.missing, acc.consumed, acc.pool⟩

/-- The gap-analysis result (spec §3). -/
structure GapAnalysis where
  matched_skills : List SkillMatch
  missing_skills : List Skill
  extra_skills : List Skill
  category_breakdown : List (String × Nat × Nat × Nat)
deriving DecidableEq, Repr

/-- Per-category tallies of matched/missing/extra (spec §4.4, last
step). -/
def categoryBreakdown (matched : List SkillMatch) (missing extra : List Skill) :
    List (String × Nat × Nat × Nat) :=
  let cats :=
    (matched.map (·.skill.category) ++ missing.map (·.category)
      ++ extra.map (·.category)).dedup
  cats.map fun cat =>
    (cat,
     (matched.filter fun m => m.skill.category == cat).length,
     (missing.filter fun s => s.category == cat).length,
     (extra.filter fun s => s.category == cat).length)

/-- Modelled from the spec: `match(resumeSkills, jdSkills) ->
GapAnalysis` (spec §4.4); the resume skills never consumed become the
extra skills. -/
def matchSkills (tax : Taxonomy) (resumeSkills jdSkills : List Skill) : GapAnalysis :=
  let acc := matchJdSkills tax jdSkills resumeSkills
  { matched_skills := acc.matched
    missing_skills := acc.missing
    extra_skills := acc.pool
    category_breakdown := categoryBreakdown acc.matched acc.missing acc.pool }

/-- The resume skills consumed by matches during `matchSkills` (implied
by the matches, not stored in the `GapAnalysis`). -/
def consumedSkills (tax : Taxonomy) (resumeSkills jdSkills : List Skill) : List Skill :=
  (matchJdSkills tax jdSkills resumeSkills).consumed

/-! ## Fit Score Calculator (spec §4.5), modelled from the spec

The calculator also runs behind `/api/analyze/analyze-gap`; modelled
from spec §4.5 with the category groups the frontend itself fixes in
app/page.tsx.
-/

/-- The technical category group (app/page.tsx). -/
def technicalCategories : List String :=
  ["programming_languages", "frameworks_libraries", "tools_platforms",
   "databases", "cloud_services", "devops", "software_architecture",
   "machine_learning", "blockchain", "cybersecurity", "data_science",
   "ci_cd", "fintech", "healthcare_it", "e_commerce"]

/-- The soft-skill category group (app/page.tsx). -/
def softSkillCategories : List String :=
  ["leadership", "communication", "collaboration", "problem_solving",
   "analytical_thinking", "agile", "scrum", "design_thinking"]

/-- A JD-side education entry (spec §3). -/
structure EducationEntry where
  degree : String
  field : String
  required : Bool
  preferred : Bool
deriving DecidableEq, Repr

/-- A JD-side certification entry (spec §3). -/
structure CertificationEntry where
  name : String
  issuer : String
  required : Bool
  preferred : Bool
deriving DecidableEq, Repr

/-- The fit-score record (spec §3). -/
structure FitScoreBreakdown where
  overall_score : Option ℚ
  technical_score : Option ℚ
  soft_skills_score : Option ℚ
  education_score : Option ℚ
  certification_score : Option ℚ
  technical_weight : ℚ
  soft_skills_weight : ℚ
  matched_count : Nat
  missing_count : Nat
  total_jd_skills : Nat
deriving DecidableEq, Repr

/-- `100 * num / den` as a percentage, `none` on a zero denominator
(never a divide-by-zero). -/
def ratioScore (num den : Nat) : Option ℚ :=
  if den = 0 then none else some ((100 * num : ℚ) / den)

/-- The full JD skill set underlying a gap analysis: matched plus
missing JD skills. -/
def jdSkillsOf (g : GapAnalysis) : List Skill :=
  g.matched_skills.map (·.skill) ++ g.missing_skills

/-- Number of JD skills of `g` in the technical category group. -/
def jdTechCount (g : GapAnalysis) : Nat :=
  ((jdSkillsOf g).filter fun s => technicalCategories.contains s.category).length

/-- Number of JD skills of `g` in the soft-skill category group. -/
def jdSoftCount (g : GapAnalysis) : Nat :=
  ((jdSkillsOf g).filter fun s => softSkillCategories.contains s.category).length

/-- Count of required entries of a JD-side entry list. -/
def requiredCount {α : Type} (isReq : α → Bool) (l : List α) : Nat :=
  (l.filter isReq).length

/-- Modelled from the spec: score of the education/certification lists
(spec §4.5): required JD entries matched against resume entries, the
match itself abstracted as a predicate; `none` when there are no
required entries. -/
def requiredEntryScore {α : Type} (isReq : α → Bool) (entryMatched : α → Bool)
    (jdEntries : List α) : Option ℚ :=
  let req := jdEntries.filter isReq
  ratioScore (req.filter entryMatched).length req.length

/-- Modelled from the spec: `score(gapAnalysis) -> FitScoreBreakdown`
(spec §4.5).  `overall_score` is the flat matched/total ratio over the
full JD skill set, `null` when it is empty; the category scores
restrict to the category groups; the weights are configuration passed
through for display and do not feed the formula. -/
def fitScore (g : GapAnalysis) (jdEducation : List EducationEntry)
    (jdCertifications : List CertificationEntry)
    (eduMatched : EducationEntry → Bool) (certMatched : CertificationEntry → Bool)
    (technicalWeight softSkillsWeight : ℚ) : FitScoreBreakdown :=
  let inTech := fun (s : Skill) => technicalCategories.contains s.category
  let inSoft := fun (s : Skill) => softSkillCategories.contains s.category
  { overall_score := ratioScore g.matched_skills.length (jdSkillsOf g).length
    technical_score :=
      ratioScore (g.matched_skills.filter fun m => inTech m.skill).length (jdTechCount g)
    soft_skills_score :=
      ratioScore (g.matched_skills.filter fun m => inSoft m.skill).length (jdSoftCount g)
    education_score := requiredEntryScore (·.required) eduMatched jdEducation
    certification_score := requiredEntryScore (·.required) certMatched jdCertifications
    technical_weight := technicalWeight
    soft_skills_weight := softSkillsWeight
    matched_count := g.matched_skills.length
    missing_count := g.missing_skills.length
    total_jd_skills := (jdSkillsOf g).length }

/-- The spec §8 scenario's gap analysis: JD `[python, communication,
aws]` against resume `[Python, AWS, leadership]`. -/
def gapScenario : GapAnalysis :=
  { matched_skills :=
      [⟨⟨"python", "programming_languages"⟩, "exact", 1⟩,
       ⟨⟨"aws", "cloud_services"⟩, "exact", 1⟩]
    missing_skills := [⟨"communication", "communication"⟩]
    extra_skills := [⟨"leadership", "leadership"⟩]
    category_breakdown :=
      [("programming_languages", 1, 0, 0), ("cloud_services", 1, 0, 0),
       ("communication", 0, 1, 0), ("leadership", 0, 0, 1)] }

/-! ## Supporting lemmas -/

/-- A list is `isEmpty` exactly when it is `[]`. -/
theorem isEmpty_eq_true_iff {α : Type} (l : List α) : l.isEmpty = true ↔ l = [] := by
  cases l <;> simp

/-- `hexDigitChar` always lands in the hex alphabet. -/
theorem hexDigitChar_mem (n : Nat) : hexDigitChar n ∈ "0123456789ABCDEF".data := by
  unfold hexDigitChar
  rcases Nat.lt_or_ge n 16 with h | h
  · interval_cases n <;> decide
  · rw [List.getD_eq_default _ _ (by simpa using h)]
    decide

/-- Every character `hexDigitChar` produces is a valid URL query
character. -/
theorem hexDigitChar_output (n : Nat) : uriOutputChar (hexDigitChar n) = true := by
  have h := hexDigitChar_mem n
  simp [uriOutputChar, h]

/-- Every character of a `%XX` escape is a valid URL query character. -/
theorem percentEscape_output (b : Nat) :
    ∀ c ∈ percentEscape b, uriOutputChar c = true := by
  intro c hc
  simp only [percentEscape, List.mem_cons, List.not_mem_nil, or_false] at hc
  rcases hc with rfl | rfl | rfl
  · decide
  · exact hexDigitChar_output _
  · exact hexDigitChar_output _

/-- Every character `encodeURIComponent` emits is a valid URL query
character. -/
theorem encodeURIComponent_chars (s : String) :
    ∀ c ∈ (encodeURIComponent s).data, uriOutputChar c = true := by
  intro c hc
  have hc' : c ∈ s.data.flatMap fun a =>
      if uriUnreserved a then [a] else (utf8Bytes a).flatMap percentEscape := hc
  rw [List.mem_flatMap] at hc'
  obtain ⟨a, _, hmem⟩ := hc'
  by_cases h : uriUnreserved a = true
  · rw [if_pos h] at hmem
    simp only [List.mem_singleton] at hmem
    subst hmem
    simp [uriOutputChar, h]
  · rw [if_neg h] at hmem
    rw [List.mem_flatMap] at hmem
    obtain ⟨b, _, hb⟩ := hmem
    exact percentEscape_output b c hb

/-! ## Claim theorems -/

/-- C8: for every skill name the recommendation step builds the learning
URL deterministically from the name alone: it is exactly the LinkedIn
Learning search base followed by the percent-encoded name, and the
encoded part consists only of URL-safe query characters (the function
is total, so it cannot fail at runtime). -/
theorem generateLinkedInLearningUrl_spec :
    ∀ skillName : String,
      generateLinkedInLearningUrl skillName
          = linkedInLearningSearchBase ++ encodeURIComponent skillName
        ∧ linkedInLearningSearchBase = "https://www.linkedin.com/learning/search?keywords="
        ∧ ∀ c ∈ (encodeURIComponent skillName).data, uriOutputChar c = true := by
  intro skillName
  exact ⟨rfl, rfl, encodeURIComponent_chars skillName⟩

/-- Witness for C8: the URL for `"C++"` is the base with the
percent-encoded name, and the `%` characters it contains are valid
query characters. -/
theorem generateLinkedInLearningUrl_spec_witness :
    generateLinkedInLearningUrl "C++"
        = "https://www.linkedin.com/learning/search?keywords=C%2B%2B"
      ∧ uriOutputChar '%' = true := by
  have h := generateLinkedInLearningUrl_spec "C++"
  refine ⟨?_, h.2.2 '%' (by decide)⟩
  rw [h.1]
  rfl

/-- C5: the fallback course-recommendation list contains at most 10
entries; the entries kept are exactly the first missing skills in their
original order (`topMissing` followed by the dropped tail restores the
input). -/
theorem courseRecommendations_capped_and_ordered :
    ∀ missingSkills : List Skill,
      (courseRecommendationsFallback missingSkills).length ≤ 10
        ∧ (courseRecommendationsFallback missingSkills).map CourseRecommendation.skill_name
            = (missingSkills.map Skill.name).take 10
        ∧ topMissing missingSkills ++ missingSkills.drop 10 = missingSkills := by
  intro l
  refine ⟨?_, ?_, ?_⟩
  · simp only [courseRecommendationsFallback, topMissing, List.length_map, List.length_take]
    exact Nat.min_le_left _ _
  · simp only [courseRecommendationsFallback, topMissing, List.map_map, List.map_take]
    rfl
  · exact List.take_append_drop 10 l

/-- C9: for every password and optional user info, `validatePassword`
returns a score in `[0, 100]` (the embedding's score is a `Nat`, so the
lower bound is inherent) and `isValid` holds exactly when the error
list is empty. -/
theorem validatePassword_score_and_isValid :
    ∀ (password : String) (userInfo : Option UserInfo),
      (validatePassword password userInfo).score ≤ 100
        ∧ ((validatePassword password userInfo).isValid = true
            ↔ (validatePassword password userInfo).errors = []) := by
  intro p u
  constructor
  · exact Nat.min_le_left _ _
  · exact isEmpty_eq_true_iff ((validatePassword p u).errors)

/-- C10: `generatePDFReport` returns the blob exactly for a delivered
response with status below 400 whose content type includes
`application/pdf`; every other outcome (error status, non-PDF content
type, axios error with a blob body, transport failure) becomes a thrown
`Error` carrying the parsed human-readable message. -/
theorem generatePDFReport_blob_only_for_pdf :
    (∀ o : PdfHttpOutcome,
        (∃ b, generatePDFReport o = .ok b) ↔
          ∃ s ct b, o = .response s ct b ∧ s < 400
            ∧ strIncludes ct "application/pdf" = true)
      ∧ (∀ s ct b, 400 ≤ s ∨ strIncludes ct "application/pdf" = false →
          generatePDFReport (.response s ct b) = .error (parseBlobError b))
      ∧ (∀ b, generatePDFReport (.axiosBlobError b) = .error (parseBlobError b))
      ∧ (∀ m, generatePDFReport (.transportError m) = .error m) := by
  refine ⟨?_, ?_, fun b => rfl, fun m => rfl⟩
  · intro o
    cases o with
    | response s ct b =>
      by_cases h : 400 ≤ s ∨ strIncludes ct "application/pdf" = false
      · simp only [generatePDFReport, if_pos h]
        constructor
        · rintro ⟨b', hb⟩
          exact absurd hb (by simp)
        · rintro ⟨s', ct', b', heq, hs, hct⟩
          injection heq with h1 h2 h3
          subst h1; subst h2
          rcases h with h | h
          · exact absurd hs (Nat.not_lt.mpr h)
          · rw [hct] at h; exact absurd h (by simp)
      · simp only [generatePDFReport, if_neg h]
        push_neg at h
        obtain ⟨h1, h2⟩ := h
        constructor
        · intro _
          refine ⟨s, ct, b, rfl, h1, ?_⟩
          cases hx : strIncludes ct "application/pdf"
          · exact absurd hx h2
          · rfl
        · intro _
          exact ⟨b, rfl⟩
    | axiosBlobError b =>
      simp [generatePDFReport]
    | transportError m =>
      simp [generatePDFReport]
  · intro s ct b h
    simp only [generatePDFReport, if_pos h]

/-- Witness for C10: a 500 response carrying a JSON error body is turned
into a thrown `Error` with the parsed `detail` message. -/
theorem generatePDFReport_blob_only_for_pdf_witness :
    generatePDFReport (.response 500 "application/json"
        ⟨"", true, some "Internal error", none⟩)
      = .error "Internal error" := by
  have h := generatePDFReport_blob_only_for_pdf.2.1 500 "application/json"
    ⟨"", true, some "Internal error", none⟩ (Or.inl (by decide))
  rw [h]
  rfl

/-- Counterexample to C3 as stated: with a resume present and no job
description, `fetchReport` rejects the request with the validation
message instead of accepting it. -/
theorem fetchReport_resume_only_rejected :
    fetchReportInputGate (some "resume-file-1") none none none
      = .rejected "Missing resume or job description" := by
  decide

/-- C3 (amended): the client pipeline requires both the resume and the
job description: `fetchReport` proceeds exactly when both sides are
present (the same condition that enables the Analyze button) and
rejects with the validation message exactly when either side is
missing; the extract request built afterwards additionally fails its
own validation exactly when the resume text/identifier is absent. -/
theorem fetchReport_requires_both_inputs :
    ∀ resumeFileId resumeTextId jdFileId jdTextId : Option String,
      ((∃ r j, fetchReportInputGate resumeFileId resumeTextId jdFileId jdTextId
            = .proceed r j)
          ↔ canAnalyze resumeFileId resumeTextId jdFileId jdTextId = true)
        ∧ (fetchReportInputGate resumeFileId resumeTextId jdFileId jdTextId
              = .rejected "Missing resume or job description"
            ↔ jsOrOpt resumeFileId resumeTextId = none
                ∨ jsOrOpt jdFileId jdTextId = none)
        ∧ (∀ req : ExtractRequest,
            (∃ e, resumeDataCheck req = .error e)
              ↔ req.resume_text = none ∧ req.resume_id = none) := by
  intro rf rt jf jt
  refine ⟨?_, ?_, ?_⟩
  · cases h1 : jsOrOpt rf rt <;> cases h2 : jsOrOpt jf jt <;>
      simp [fetchReportInputGate, canAnalyze, h1, h2]
  · cases h1 : jsOrOpt rf rt <;> cases h2 : jsOrOpt jf jt <;>
      simp [fetchReportInputGate, h1, h2]
  · intro req
    by_cases hc : req.resume_text = none ∧ req.resume_id = none
    · simp [resumeDataCheck, hc]
    · simp [resumeDataCheck, hc]

/-- C6: the extract phase performs at most one retry (never more than
two POSTs), and when the retry itself fails its failure is surfaced as
the phase's error rather than swallowed. -/
theorem extract_single_retry_and_surface :
    ∀ (α : Type) (first : CallOutcome α) (aborted : Bool)
      (fallbackResumeText fallbackJdText : Option String) (retry : CallOutcome α),
      (extractPhase first aborted fallbackResumeText fallbackJdText retry).2 ≤ 2
        ∧ (∀ e e2, first = .failure e → retry = .failure e2 →
            (extractPhase first aborted fallbackResumeText fallbackJdText retry).2 = 2 →
            (extractPhase first aborted fallbackResumeText fallbackJdText retry).1
              = .error e2.message) := by
  intro α first ab frt fjt retry
  cases first with
  | success v =>
    refine ⟨by simp [extractPhase], ?_⟩
    intro e e2 h
    exact absurd h (by simp)
  | failure e =>
    by_cases h1 : isCancelError e = true
    · refine ⟨by simp [extractPhase, h1], ?_⟩
      intro e' e2 he hr hcount
      exact absurd hcount (by simp [extractPhase, h1])
    · by_cases h2 : isTimeoutLike e = true
      · refine ⟨by simp [extractPhase, h1, h2], ?_⟩
        intro e' e2 he hr hcount
        exact absurd hcount (by simp [extractPhase, h1, h2])
      · by_cases h3 : ((jsPresent frt).isSome && (jsPresent fjt).isSome) = true
        · refine ⟨by cases retry <;> simp [extractPhase, h1, h2, h3], ?_⟩
          intro e' e2 he hr hcount
          subst hr
          simp [extractPhase, h1, h2, h3]
        · refine ⟨by simp [extractPhase, h1, h2, h3], ?_⟩
          intro e' e2 he hr hcount
          exact absurd hcount (by simp [extractPhase, h1, h2, h3])

/-- Witness for C6: a failing upstream POST with fallback texts present
triggers exactly one retry, and the retry's failure message is what the
caller sees. -/
theorem extract_single_retry_and_surface_witness :
    (extractPhase (α := Nat) (.failure ⟨none, none, "upstream exploded"⟩) false
        (some "resume text") (some "jd text")
        (.failure ⟨none, none, "still failing"⟩)).1
      = .error "still failing" := by
  exact (extract_single_retry_and_surface Nat _ _ _ _ _).2 _ _ rfl rfl (by decide)

/-- C4: a partial extraction is never passed to analysis.  On the
client, an extract-phase error means the analyze POST is performed zero
times and the pipeline result is that error.  On the (spec-modelled)
orchestrator, a failing side makes the whole operation fail tagged with
that side — resume failures tag `resume`, a JD failure after a resume
success tags `job_description` — and a combined pair exists only when
both sides succeeded. -/
theorem extraction_failure_blocks_analyze :
    (∀ (α β : Type) (m : String) (a : CallOutcome β) (ab : Bool),
        fetchReportRun (α := α) (.error m) a ab = (.error m, 0))
      ∧ (∀ (α : Type) (e : ExtractionError) (jd : Except ExtractionError α),
          extractBoth (.error e) jd = .error (.resume, e))
      ∧ (∀ (α : Type) (r : α) (e : ExtractionError),
          extractBoth (.ok r) (.error e) = .error (.job_description, e))
      ∧ (∀ (α : Type) (rr jr : Except ExtractionError α) (p : α × α),
          extractBoth rr jr = .ok p → rr = .ok p.1 ∧ jr = .ok p.2) := by
  refine ⟨fun α β m a ab => rfl, fun α e jd => rfl, fun α r e => rfl, ?_⟩
  intro α rr jr p h
  cases rr with
  | error e => exact absurd h (by simp [extractBoth])
  | ok r =>
    cases jr with
    | error e => exact absurd h (by simp [extractBoth])
    | ok j =>
      simp only [extractBoth] at h
      injection h with h'
      subst h'
      exact ⟨rfl, rfl⟩

/-- Witness for C4: a pair is produced exactly from the two successful
sides. -/
theorem extraction_failure_blocks_analyze_witness :
    (Except.ok 1 : Except ExtractionError Nat) = .ok (1, 2).1
      ∧ (Except.ok 2 : Except ExtractionError Nat) = .ok (1, 2).2 :=
  extraction_failure_blocks_analyze.2.2.2 Nat (.ok 1) (.ok 2) (1, 2) rfl

/-- `consumeFirst` removes exactly the returned element: putting it back
in front of the remaining pool permutes the input pool, and the
remaining pool is a sublist of the input. -/
theorem consumeFirst_perm {α β : Type} (p : α → Option β) :
    ∀ (l : List α) (x : α) (b : β) (rest : List α),
      consumeFirst p l = some (x, b, rest) →
      List.Perm (x :: rest) l ∧ List.Sublist rest l := by
  intro l
  induction l with
  | nil =>
    intro x b rest h
    exact absurd h (by simp [consumeFirst])
  | cons a as ih =>
    intro x b rest h
    simp only [consumeFirst] at h
    cases hp : p a with
    | some b0 =>
      rw [hp] at h
      simp only [Option.some.injEq, Prod.mk.injEq] at h
      obtain ⟨rfl, -, rfl⟩ := h
      exact ⟨List.Perm.refl _, List.sublist_cons_self a as⟩
    | none =>
      rw [hp] at h
      cases hc : consumeFirst p as with
      | none =>
        rw [hc] at h
        exact absurd h (by simp)
      | some y =>
        obtain ⟨y1, y2, y3⟩ := y
        rw [hc] at h
        simp only [Option.some.injEq, Prod.mk.injEq] at h
        obtain ⟨rfl, -, rfl⟩ := h
        obtain ⟨hperm, hsub⟩ := ih _ _ _ hc
        constructor
        · exact (List.Perm.swap a y1 y3).trans (hperm.cons a)
        · exact hsub.cons₂ a

/-- `findMatchForJd` consumes exactly the matched resume skill from the
pool. -/
theorem findMatchForJd_perm (tax : Taxonomy) (jd : Skill) (pool : List Skill)
    (r : Skill) (tc : String × ℚ) (poolAfter : List Skill) :
    findMatchForJd tax jd pool = some (r, tc, poolAfter) →
    List.Perm (r :: poolAfter) pool ∧ List.Sublist poolAfter pool := by
  intro h
  unfold findMatchForJd at h
  cases h1 : consumeFirst (exactStrategy jd) pool with
  | some res =>
    rw [h1] at h
    injection h with h'
    subst h'
    exact consumeFirst_perm _ pool r tc poolAfter h1
  | none =>
    rw [h1] at h
    cases h2 : consumeFirst (synonymStrategy tax jd) pool with
    | some res =>
      rw [h2] at h
      injection h with h'
      subst h'
      exact consumeFirst_perm _ pool r tc poolAfter h2
    | none =>
      rw [h2] at h
      exact consumeFirst_perm _ pool r tc poolAfter h

/-- Invariants of the matching pass: the matched JD skills together with
the missing skills permute the JD list, the consumed resume skills
together with the final pool permute the input pool, and the final pool
is a sublist of the input pool. -/
theorem matchJdSkills_spec (tax : Taxonomy) :
    ∀ (jdSkills pool : List Skill),
      List.Perm ((matchJdSkills tax jdSkills pool).matched.map (·.skill)
          ++ (matchJdSkills tax jdSkills pool).missing) jdSkills
        ∧ List.Perm ((matchJdSkills tax jdSkills pool).consumed
            ++ (matchJdSkills tax jdSkills pool).pool) pool
        ∧ List.Sublist (matchJdSkills tax jdSkills pool).pool pool := by
  intro jds
  induction jds with
  | nil =>
    intro pool
    exact ⟨by simp [matchJdSkills], by simp [matchJdSkills],
           by simp [matchJdSkills]⟩
  | cons jd rest ih =>
    intro pool
    cases hf : findMatchForJd tax jd pool with
    | some res =>
      obtain ⟨r, tc, poolAfter⟩ := res
      obtain ⟨hfp, hfs⟩ := findMatchForJd_perm tax jd pool r tc poolAfter hf
      obtain ⟨ih1, ih2, ih3⟩ := ih poolAfter
      refine ⟨?_, ?_, ?_⟩
      · simp only [matchJdSkills, hf, List.map_cons, List.cons_append]
        exact ih1.cons jd
      · simp only [matchJdSkills, hf, List.cons_append]
        exact ((ih2.cons r).trans hfp)
      · simp only [matchJdSkills, hf]
        exact ih3.trans hfs
    | none =>
      obtain ⟨ih1, ih2, ih3⟩ := ih pool
      refine ⟨?_, ?_, ?_⟩
      · simp only [matchJdSkills, hf]
        exact (List.perm_middle).trans (ih1.cons jd)
      · simp only [matchJdSkills, hf]
        exact ih2
      · simp only [matchJdSkills, hf]
        exact ih3

/-- C2: for every taxonomy and every pair of inventories, `matchSkills`
partitions the JD set exactly — the JD skills underlying the matches
together with the missing skills permute the JD inventory (so their
union is the JD set with zero overlap, with multiplicity) — while the
consumed resume skills together with the extra skills permute the
resume inventory (so the extras are drawn from the resume and are
disjoint from every consumed skill), the extras even appearing as a
sublist of the resume inventory. -/
theorem match_partition_invariant :
    ∀ (tax : Taxonomy) (resumeSkills jdSkills : List Skill),
      List.Perm ((matchSkills tax resumeSkills jdSkills).matched_skills.map (·.skill)
          ++ (matchSkills tax resumeSkills jdSkills).missing_skills) jdSkills
        ∧ List.Perm (consumedSkills tax resumeSkills jdSkills
            ++ (matchSkills tax resumeSkills jdSkills).extra_skills) resumeSkills
        ∧ List.Sublist (matchSkills tax resumeSkills jdSkills).extra_skills resumeSkills := by
  intro tax R J
  exact matchJdSkills_spec tax J R

/-- `ratioScore` is `none` exactly on a zero denominator. -/
theorem ratioScore_eq_none_iff (n d : Nat) : ratioScore n d = none ↔ d = 0 := by
  by_cases h : d = 0 <;> simp [ratioScore, h]

/-- Any `ratioScore` value with numerator at most the denominator lies
in `[0, 100]`. -/
theorem ratioScore_bounds (n d : Nat) (hnd : n ≤ d) :
    ∀ q : ℚ, ratioScore n d = some q → 0 ≤ q ∧ q ≤ 100 := by
  intro q hq
  by_cases h : d = 0
  · simp [ratioScore, h] at hq
  · simp only [ratioScore, if_neg h, Option.some.injEq] at hq
    subst hq
    have hd : (0 : ℚ) < d := by
      exact_mod_cast Nat.pos_of_ne_zero h
    constructor
    · positivity
    · rw [div_le_iff₀ hd]
      have hcast : (n : ℚ) ≤ d := by exact_mod_cast hnd
      nlinarith

/-- The matched-count numerator of a category score never exceeds the
JD-side count of that category. -/
theorem filter_skill_le (p : Skill → Bool) :
    ∀ (ms : List SkillMatch) (rest : List Skill),
      (ms.filter fun m => p m.skill).length
        ≤ ((ms.map (·.skill) ++ rest).filter p).length := by
  intro ms rest
  induction ms with
  | nil => simp
  | cons m t ih =>
    simp only [List.map_cons, List.cons_append, List.filter_cons]
    cases h : p m.skill
    · simpa [h] using ih
    · simpa [h] using Nat.succ_le_succ ih

/-- C1: in every fit score, `total_jd_skills` counts the full
matched-plus-missing JD skill set, and `overall_score` is exactly
`100 * matched_count / total_jd_skills` when that total is nonzero and
`null` when it is zero. -/
theorem overall_score_flat_ratio :
    ∀ (g : GapAnalysis) (jdEducation : List EducationEntry)
      (jdCertifications : List CertificationEntry)
      (eduMatched : EducationEntry → Bool) (certMatched : CertificationEntry → Bool)
      (tw sw : ℚ),
      (fitScore g jdEducation jdCertifications eduMatched certMatched tw sw).total_jd_skills
          = (fitScore g jdEducation jdCertifications eduMatched certMatched tw sw).matched_count
            + (fitScore g jdEducation jdCertifications eduMatched certMatched tw sw).missing_count
        ∧ ((fitScore g jdEducation jdCertifications eduMatched certMatched tw sw).total_jd_skills ≠ 0 →
            (fitScore g jdEducation jdCertifications eduMatched certMatched tw sw).overall_score
              = some ((100 * (fitScore g jdEducation jdCertifications eduMatched certMatched tw sw).matched_count : ℚ)
                  / (fitScore g jdEducation jdCertifications eduMatched certMatched tw sw).total_jd_skills))
        ∧ ((fitScore g jdEducation jdCertifications eduMatched certMatched tw sw).total_jd_skills = 0 →
            (fitScore g jdEducation jdCertifications eduMatched certMatched tw sw).overall_score = none) := by
  intro g edu cert em cm tw sw
  refine ⟨?_, ?_, ?_⟩
  · simp [fitScore, jdSkillsOf]
  · intro h
    have h' : (jdSkillsOf g).length ≠ 0 := h
    show ratioScore g.matched_skills.length (jdSkillsOf g).length = _
    rw [ratioScore, if_neg h']
    rfl
  · intro h
    have h' : (jdSkillsOf g).length = 0 := h
    show ratioScore g.matched_skills.length (jdSkillsOf g).length = none
    rw [ratioScore, if_pos h']

/-- Witness for C1: the spec §8 scenario (2 matched of 3 JD skills)
scores `200/3`, i.e. 66.7 after display rounding. -/
theorem overall_score_flat_ratio_witness :
    (fitScore gapScenario [] [] (fun _ => false) (fun _ => false)
        (11 / 20) (9 / 20)).overall_score = some (200 / 3) := by
  have h := (overall_score_flat_ratio gapScenario [] [] (fun _ => false)
      (fun _ => false) (11 / 20) (9 / 20)).2.1 (by decide)
  rw [h]
  have hm : (fitScore gapScenario [] [] (fun _ => false) (fun _ => false)
      (11 / 20) (9 / 20)).matched_count = 2 := rfl
  have ht : (fitScore gapScenario [] [] (fun _ => false) (fun _ => false)
      (11 / 20) (9 / 20)).total_jd_skills = 3 := rfl
  rw [hm, ht]
  norm_num

/-- C7: in every fit-score breakdown each of the five scores is `null`
exactly when its JD-side denominator (full JD set, technical group,
soft-skill group, required education entries, required certification
entries respectively) is zero — so no division by zero ever occurs —
and every non-null score lies in `[0, 100]`. -/
theorem fitScore_bounds_and_null_iff :
    ∀ (g : GapAnalysis) (jdEducation : List EducationEntry)
      (jdCertifications : List CertificationEntry)
      (eduMatched : EducationEntry → Bool) (certMatched : CertificationEntry → Bool)
      (tw sw : ℚ),
      ((fitScore g jdEducation jdCertifications eduMatched certMatched tw sw).overall_score = none
          ↔ (jdSkillsOf g).length = 0)
        ∧ ((fitScore g jdEducation jdCertifications eduMatched certMatched tw sw).technical_score = none
            ↔ jdTechCount g = 0)
        ∧ ((fitScore g jdEducation jdCertifications eduMatched certMatched tw sw).soft_skills_score = none
            ↔ jdSoftCount g = 0)
        ∧ ((fitScore g jdEducation jdCertifications eduMatched certMatched tw sw).education_score = none
            ↔ requiredCount (·.required) jdEducation = 0)
        ∧ ((fitScore g jdEducation jdCertifications eduMatched certMatched tw sw).certification_score = none
            ↔ requiredCount (·.required) jdCertifications = 0)
        ∧ (∀ q : ℚ,
            ((fitScore g jdEducation jdCertifications eduMatched certMatched tw sw).overall_score = some q
              ∨ (fitScore g jdEducation jdCertifications eduMatched certMatched tw sw).technical_score = some q
              ∨ (fitScore g jdEducation jdCertifications eduMatched certMatched tw sw).soft_skills_score = some q
              ∨ (fitScore g jdEducation jdCertifications eduMatched certMatched tw sw).education_score = some q
              ∨ (fitScore g jdEducation jdCertifications eduMatched certMatched tw sw).certification_score = some q) →
            0 ≤ q ∧ q ≤ 100) := by
  intro g edu cert em cm tw sw
  have htot : (jdSkillsOf g).length
      = g.matched_skills.length + g.missing_skills.length := by
    simp [jdSkillsOf]
  refine ⟨?_, ?_, ?_, ?_, ?_, ?_⟩
  · exact ratioScore_eq_none_iff _ _
  · exact ratioScore_eq_none_iff _ _
  · exact ratioScore_eq_none_iff _ _
  · exact ratioScore_eq_none_iff _ _
  · exact ratioScore_eq_none_iff _ _
  · intro q h
    rcases h with h | h | h | h | h
    · refine ratioScore_bounds _ _ ?_ q h
      rw [htot]
      exact Nat.le_add_right _ _
    · exact ratioScore_bounds _ _ (filter_skill_le _ _ _) q h
    · exact ratioScore_bounds _ _ (filter_skill_le _ _ _) q h
    · exact ratioScore_bounds _ _ (List.length_filter_le _ _) q h
    · exact ratioScore_bounds _ _ (List.length_filter_le _ _) q h

/-- Witness for C7: the spec §8 scenario's overall score `200/3` is a
non-null score and lies in `[0, 100]`. -/
theorem fitScore_bounds_and_null_iff_witness :
    0 ≤ (200 / 3 : ℚ) ∧ (200 / 3 : ℚ) ≤ 100 := by
  have hov : (fitScore gapScenario [] [] (fun _ => false) (fun _ => false)
      (11 / 20) (9 / 20)).overall_score = some (200 / 3) := by
    show ratioScore 2 3 = some (200 / 3)
    norm_num [ratioScore]
  exact (fitScore_bounds_and_null_iff gapScenario [] [] (fun _ => false)
    (fun _ => false) (11 / 20) (9 / 20)).2.2.2.2.2 (200 / 3) (Or.inl hov)

end SkillSync
